import Mathlib

/-!
# Verification of the pay-frontend outbound-client and service-cache core

Shallow embedding of:
* `app/utils/base_client2.js` — header computation (`getHeaders`), retry
  predicate (`retryOnEconnreset`), retry defaults, and request construction
  (`_request`, incl. forward-proxy rewriting);
* the service-metadata cache middleware (`module.exports` of the middleware
  file) — authorisation short-circuit, cache lookup/insert (memory-cache
  semantics), downstream fetch, and request-context population.

JavaScript conventions modelled explicitly:
* absent values (`undefined`/`null`) are `Option.none`;
* string truthiness: the empty string is falsy;
* `null + ':p'` string-concatenates as `"null:p"`;
* object property assignment `o[k] = v` overwrites in place
  (modelled on association lists by `hset`);
* `lodash.merge(headers, args.headers)` over flat string-valued objects
  overwrites key-wise (modelled by `mergeHeaders`).
-/

/-- JS truthiness of an optional string: `undefined` and `''` are falsy. -/
def jsTruthyStr : Option String → Bool
  | none => false
  | some s => s != ""

/-- JS `x || ''` for an optional string. -/
def jsOrEmpty (o : Option String) : String := o.getD ""

/-! ## URL parsing (model of node's `url.parse` restricted to the fields used:
`protocol`, `hostname`, `port`) -/

/-- The fields of a parsed URL that `base_client2.js` reads or rewrites. -/
structure UrlParts where
  protocol : Option String
  hostname : Option String
  port : Option String
deriving DecidableEq

/-- Split a character list at the first `"://"`, returning the scheme part and
the remainder, or `none` when no scheme separator occurs. -/
def findScheme : List Char → Option (List Char × List Char)
  | [] => none
  | ':' :: '/' :: '/' :: rest => some ([], rest)
  | c :: rest =>
      match findScheme rest with
      | some (pre, post) => some (c :: pre, post)
      | none => none

/-- The authority component: everything up to the first `/`, `?` or `#`. -/
def takeAuthority (cs : List Char) : List Char :=
  cs.takeWhile (fun c => !(c == '/' || c == '?' || c == '#'))

/-- Split at the first occurrence of `sep`: the part before it, and the part
after it when it occurs. -/
def breakOnChar (sep : Char) : List Char → List Char × Option (List Char)
  | [] => ([], none)
  | c :: cs =>
      if c = sep then ([], some cs)
      else
        let r := breakOnChar sep cs
        (c :: r.1, r.2)

/-- Model of node `url.parse` for the absolute URLs this client handles:
extracts `protocol`, `hostname` and `port` (both `none` when absent). -/
def urlParse (s : String) : UrlParts :=
  match findScheme s.toList with
  | none => { protocol := none, hostname := none, port := none }
  | some (scheme, rest) =>
      let auth := takeAuthority rest
      let hp := breakOnChar ':' auth
      { protocol := some (scheme.asString ++ ":")
        hostname := if hp.1 = [] then none else some hp.1.asString
        port := hp.2.map List.asString }

/-- JS string coercion of a possibly-null hostname (`null + s` is `"null" + s`). -/
def hostnameStr (o : Option String) : String := o.getD "null"

/-- The `(urlParse(url).port) ? ':' + urlParse(url).port : ''` expression:
empty when the port is absent or the empty string. -/
def portSuffix : Option String → String
  | none => ""
  | some p => if p = "" then "" else ":" ++ p

/-! ## Header objects as association lists -/

/-- JS object property assignment `headers[k] = v`: overwrite in place when
the key is present, append otherwise. -/
def hset : List (String × String) → String → String → List (String × String)
  | [], k, v => [(k, v)]
  | (k', v') :: rest, k, v =>
      if k' = k then (k, v) :: rest else (k', v') :: hset rest k v

/-- Model of `lodash.merge(headers, extra)` on flat string-valued objects: each binding
of `extra` overwrites `headers` key-wise, in order. -/
def mergeHeaders (headers : List (String × String)) :
    List (String × String) → List (String × String)
  | [] => headers
  | (k, v) :: rest => mergeHeaders (hset headers k v) rest

/-! ## `getHeaders` (base_client2.js lines 47-70) -/

/-- The `args` object of a `base_client2` call: optional correlation id,
optional caller headers, optional body and query string. -/
structure Args where
  correlationId : Option String
  headers : List (String × String)
  payload : Option String
  qs : Option String
deriving DecidableEq

/-- The trace `segmentData` passed to `getHeaders`: the ambient cls segment
(carrying its `trace_id`) and an optional caller-provided sub-segment id. -/
structure SegmentData where
  clsSegment : Option String
  subSegment : Option String
deriving DecidableEq

/-- The headers computed by `getHeaders` before the caller-header merge
(base_client2.js lines 48-66).  `corrName` is the correlation header name,
imported there from config outside this repository's sources; `freshId` is the
id the freshly constructed `AWSXRay.Segment` would carry. -/
def computedHeaders (corrName : String) (args : Args) (segmentData : SegmentData)
    (url : String) (freshId : String) : List (String × String) :=
  let headers := hset [] "Content-Type" "application/json"
  let headers := hset headers corrName (jsOrEmpty args.correlationId)
  let headers :=
    if url ≠ "" then
      hset headers "host"
        (hostnameStr (urlParse url).hostname ++ portSuffix (urlParse url).port)
    else headers
  match segmentData.clsSegment with
  | some traceId =>
      hset headers "X-Amzn-Trace-Id"
        ("Root=" ++ traceId ++ ";Parent=" ++ segmentData.subSegment.getD freshId
          ++ ";Sampled=1")
  | none => headers

/-- The full `getHeaders` (base_client2.js lines 47-70): the computed headers with the
caller's `args.headers` merged last. -/
def getHeaders (corrName : String) (args : Args) (segmentData : SegmentData)
    (url : String) (freshId : String) : List (String × String) :=
  mergeHeaders (computedHeaders corrName args segmentData url freshId) args.headers

/-! ## Retry policy (base_client2.js lines 24-45) -/

/-- The `RETRIABLE_ERRORS` allow-list (line 24). -/
def RETRIABLE_ERRORS : List String := ["ECONNRESET"]

/-- A JS error object as the retry predicate sees it: only its `code` field. -/
structure ErrObj where
  code : Option String
deriving DecidableEq

/-- The predicate `retryOnEconnreset(err)` (lines 26-28): `err && includes(RETRIABLE_ERRORS,
err.code)`; a missing error or a missing code yields false. -/
def retryOnEconnreset : Option ErrObj → Bool
  | none => false
  | some e =>
      match e.code with
      | some c => RETRIABLE_ERRORS.contains c
      | none => false

/-- The retry-relevant defaults installed on the client (lines 38-45). -/
structure RetryDefaults where
  json : Bool
  maxAttempts : Nat
  retryDelay : Nat
deriving DecidableEq

/-- The call `request.defaults` with json true, maxAttempts 3, retryDelay 5000 (lines 38-45). -/
def clientDefaults : RetryDefaults :=
  { json := true, maxAttempts := 3, retryDelay := 5000 }

/-- The outcome of one transport attempt: a connection-level error, or an HTTP
response with a status code (requestretry hands the strategy `err = null` in
the response case). -/
inductive AttemptOutcome
  | failure (e : ErrObj)
  | response (status : Nat)
deriving DecidableEq

/-- The error argument requestretry passes to the retry strategy. -/
def errOf : AttemptOutcome → Option ErrObj
  | .failure e => some e
  | .response _ => none

/-- Whether the configured strategy asks for a retry after this outcome. -/
def shouldRetry (o : AttemptOutcome) : Bool := retryOnEconnreset (errOf o)

/-- requestretry's attempt loop: attempt `i` (1-based) runs, and a retry
follows exactly when the strategy fires and fewer than `maxAttempts` attempts
have been made.  `fuel` bounds the recursion; `maxAttempts` fuel suffices. -/
def attemptsFrom (outcomes : Nat → AttemptOutcome) (maxAttempts : Nat) :
    Nat → Nat → Nat
  | _, 0 => 0
  | i, fuel + 1 =>
      1 + (if shouldRetry (outcomes i) && decide (i < maxAttempts) then
        attemptsFrom outcomes maxAttempts (i + 1) fuel else 0)

/-- Total attempts the client makes when attempt `i` yields `outcomes i`. -/
def totalAttempts (outcomes : Nat → AttemptOutcome) (maxAttempts : Nat) : Nat :=
  attemptsFrom outcomes maxAttempts 1 maxAttempts

/-! ## `_request` (base_client2.js lines 82-114) -/

/-- The `uri` field of the request options: the untouched URL string, or (in
the forward-proxy case) the parsed-and-rewritten URL object. -/
inductive Uri
  | raw (s : String)
  | obj (u : UrlParts)
deriving DecidableEq

/-- The options object handed to the requestretry client (lines 98-111). -/
structure RequestOptions where
  uri : Uri
  method : String
  usesHttpAgent : Bool
  headers : List (String × String)
  body : Option String
  qs : Option String
deriving DecidableEq

/-- The body of `_request` up to the requestretry call (lines 82-113): agent selection by
protocol, forward-proxy rewriting of the destination's hostname and port, and
header computation from the ORIGINAL url.  `forwardProxy` models
`process.env.FORWARD_PROXY_URL` (absent or set). -/
def buildRequestOptions (corrName : String) (forwardProxy : Option String)
    (methodName url : String) (args : Args) (clsSegment subSegment : Option String)
    (freshId : String) : RequestOptions :=
  let urlOrForwardProxy : Uri :=
    if jsTruthyStr forwardProxy then
      Uri.obj { urlParse url with
        hostname := (urlParse (jsOrEmpty forwardProxy)).hostname
        port := (urlParse (jsOrEmpty forwardProxy)).port }
    else Uri.raw url
  { uri := urlOrForwardProxy
    method := methodName
    usesHttpAgent := (urlParse url).protocol = some "http:"
    headers := getHeaders corrName args ⟨clsSegment, subSegment⟩ url freshId
    body := args.payload
    qs := args.qs }

/-! ## Service-metadata cache middleware

The inbound request's fields the middleware reads, the shared `memory-cache`
instance, and the middleware body.  `Service` is the type of the opaque
service-metadata objects the downstream `adminusers` client resolves with
(always JS objects, hence truthy). -/

/-- The `gateway_account` object inside `req.chargeData`: the middleware reads
its `gateway_account_id` (for cache keying) and its `serviceName` (in the
failure log line). -/
structure GatewayAccount where
  gateway_account_id : Option String
  serviceName : Option String
deriving DecidableEq

/-- The `req.chargeData` object, when present. -/
structure ChargeData where
  gateway_account : Option GatewayAccount
deriving DecidableEq

/-- The inbound request fields the middleware reads. -/
structure Req where
  chargeId : Option String
  chargeData : Option ChargeData
deriving DecidableEq

/-- Model of `lodash.get(req, ..)` at path `chargeData.gateway_account.gateway_account_id`:
`undefined` (here `none`) when any step of the path is absent. -/
def gatewayAccountIdOf (req : Req) : Option String :=
  (req.chargeData.bind (·.gateway_account)).bind (·.gateway_account_id)

/-- The guard `!req.chargeId && !req.chargeData` (middleware line 18): neither a truthy
charge id nor charge data is present. -/
def lacksAuthContext (req : Req) : Bool :=
  !jsTruthyStr req.chargeId && !req.chargeData.isSome

/-- The shared `memory-cache` store: entries of key (the gateway account id,
possibly `undefined`), stored value, and absolute expiry time. -/
abbrev SCache (Service : Type) := List (Option String × Service × Nat)

/-- Model of `memory-cache` `get(k)` at time `now`: the stored value when the key is
present and not yet expired (an entry expires strictly after `expire`). -/
def cacheGet {Service : Type} : SCache Service → Option String → Nat → Option Service
  | [], _, _ => none
  | (k', v, expire) :: rest, k, now =>
      if k' = k then (if now ≤ expire then some v else none)
      else cacheGet rest k now

/-- Drop any existing entry for `k`. -/
def cacheRemove {Service : Type} : SCache Service → Option String → SCache Service
  | [], _ => []
  | (k', v, expire) :: rest, k =>
      if k' = k then cacheRemove rest k
      else (k', v, expire) :: cacheRemove rest k

/-- Model of `memory-cache` `put(k, v, ttl)` at time `now`: the entry for `k` is
(re)created with expiry `now + ttl`. -/
def cachePut {Service : Type} (c : SCache Service) (k : Option String) (v : Service)
    (now ttl : Nat) : SCache Service :=
  (k, v, now + ttl) :: cacheRemove c k

/-- How one middleware invocation ends: a terminal response routed with the
given status kind, a `next()` call, or an exception escaping the handler (so
neither `next()` nor a response is produced). -/
inductive MWOutcome
  | respond (statusKind : String)
  | nextCalled
  | threw
deriving DecidableEq

/-- The observable effect of one middleware invocation: how it ended, the
`res.locals.service` value (if any), the cache afterwards, and whether the
downstream client's `findServiceBy` / the cache's `get` were invoked. -/
structure MWResult (Service : Type) where
  outcome : MWOutcome
  service : Option Service
  cache : SCache Service
  downstreamCalled : Bool
  cacheRead : Bool
deriving DecidableEq

/-- The middleware body (middleware lines 17-37).  `now` is the current time,
`maxAge` is `SERVICE_CACHE_MAX_AGE`, and `fetch` is the outcome the downstream
`findServiceBy({gatewayAccountId})` call would deliver if invoked.  In the
catch branch the log line dereferences
`req.chargeData.gateway_account.serviceName`; when `chargeData` or its
`gateway_account` is absent that dereference throws a TypeError inside the
rejection handler, so `next()` is never reached (`MWOutcome.threw`). -/
def middleware {Service : Type} (req : Req) (cache : SCache Service) (now maxAge : Nat)
    (fetch : Except Unit Service) : MWResult Service :=
  let gatewayAccountId := gatewayAccountIdOf req
  if lacksAuthContext req then
    { outcome := .respond "UNAUTHORISED", service := none, cache := cache
      downstreamCalled := false, cacheRead := false }
  else
    match cacheGet cache gatewayAccountId now with
    | some cachedService =>
        { outcome := .nextCalled, service := some cachedService, cache := cache
          downstreamCalled := false, cacheRead := true }
    | none =>
        match fetch with
        | .ok service =>
            { outcome := .nextCalled, service := some service
              cache := cachePut cache gatewayAccountId service now maxAge
              downstreamCalled := true, cacheRead := true }
        | .error _ =>
            match req.chargeData.bind (·.gateway_account) with
            | some _ =>
                { outcome := .nextCalled, service := none, cache := cache
                  downstreamCalled := true, cacheRead := true }
            | none =>
                { outcome := .threw, service := none, cache := cache
                  downstreamCalled := true, cacheRead := true }

/-! ## Helper lemmas on header objects -/

/-- After `hset hs k v`, looking up `k` yields `v`. -/
theorem lookup_hset_self (hs : List (String × String)) (k v : String) :
    (hset hs k v).lookup k = some v := by
  induction hs with
  | nil => simp [hset]
  | cons e rest ih =>
      obtain ⟨k1, v1⟩ := e
      by_cases h : k1 = k
      · simp [hset, h]
      · simp [hset, h, List.lookup_cons, beq_false_of_ne (Ne.symm h), ih]

/-- Writing `hset hs k v` leaves the binding of any other key unchanged. -/
theorem lookup_hset_ne (hs : List (String × String)) (k v : String) {k' : String}
    (h : k' ≠ k) : (hset hs k v).lookup k' = hs.lookup k' := by
  induction hs with
  | nil => simp [hset, List.lookup_cons, beq_false_of_ne h]
  | cons e rest ih =>
      obtain ⟨k1, v1⟩ := e
      by_cases h1 : k1 = k
      · subst h1
        simp [hset, List.lookup_cons, beq_false_of_ne h]
      · by_cases h2 : k' = k1
        · simp [hset, h1, h2, List.lookup_cons]
        · simp [hset, h1, List.lookup_cons, beq_false_of_ne h2, ih]

/-- Merging caller headers that never bind `k` does not change `k`'s value. -/
theorem lookup_mergeHeaders_not_mem (hs extra : List (String × String)) {k : String}
    (h : ∀ v, (k, v) ∉ extra) : (mergeHeaders hs extra).lookup k = hs.lookup k := by
  induction extra generalizing hs with
  | nil => rfl
  | cons e rest ih =>
      obtain ⟨k1, v1⟩ := e
      have hk : k ≠ k1 := by
        intro he
        exact h v1 (by simp [he])
      have hrest : ∀ v, (k, v) ∉ rest := fun v hv => h v (List.mem_cons_of_mem _ hv)
      simp only [mergeHeaders]
      rw [ih (hset hs k1 v1) hrest, lookup_hset_ne hs k1 v1 hk]

/-- When caller headers bind `k` (with pairwise-distinct keys, as a JS object
has), the merged value at `k` is the caller's. -/
theorem lookup_mergeHeaders_mem (hs extra : List (String × String)) {k v : String}
    (hnodup : (extra.map Prod.fst).Nodup) (hv : extra.lookup k = some v) :
    (mergeHeaders hs extra).lookup k = some v := by
  induction extra generalizing hs with
  | nil => simp [List.lookup] at hv
  | cons e rest ih =>
      obtain ⟨k1, v1⟩ := e
      simp only [List.map_cons, List.nodup_cons] at hnodup
      by_cases hk : k = k1
      · subst hk
        have hv1 : v1 = v := by simpa [List.lookup_cons] using hv
        subst hv1
        have hrest : ∀ w, (k, w) ∉ rest := by
          intro w hw
          exact hnodup.1 (List.mem_map_of_mem Prod.fst hw)
        simp only [mergeHeaders]
        rw [lookup_mergeHeaders_not_mem _ _ hrest, lookup_hset_self]
      · have hv' : rest.lookup k = some v := by
          simpa [List.lookup_cons, beq_false_of_ne hk] using hv
        simp only [mergeHeaders]
        exact ih (hset hs k1 v1) hnodup.2 hv'

/-- Merging the empty caller-header object is a no-op. -/
theorem mergeHeaders_nil (hs : List (String × String)) : mergeHeaders hs [] = hs := rfl

/-- The computed headers always carry the JSON content type, as long as the
correlation header name is not itself `Content-Type`. -/
theorem computedHeaders_contentType (corrName : String) (args : Args)
    (seg : SegmentData) (url freshId : String) (hc : corrName ≠ "Content-Type") :
    (computedHeaders corrName args seg url freshId).lookup "Content-Type" =
      some "application/json" := by
  have hc' : "Content-Type" ≠ corrName := Ne.symm hc
  cases hseg : seg.clsSegment <;> by_cases hu : url = "" <;>
    simp [computedHeaders, hseg, hu, lookup_hset_ne, lookup_hset_self, hc']

/-- The computed headers carry the correlation header, valued at the caller's
correlation id or the empty string. -/
theorem computedHeaders_correlation (corrName : String) (args : Args)
    (seg : SegmentData) (url freshId : String)
    (hh : corrName ≠ "host") (ht : corrName ≠ "X-Amzn-Trace-Id") :
    (computedHeaders corrName args seg url freshId).lookup corrName =
      some (jsOrEmpty args.correlationId) := by
  cases hseg : seg.clsSegment <;> by_cases hu : url = "" <;>
    simp [computedHeaders, hseg, hu, lookup_hset_ne, lookup_hset_self, hh, ht]

/-- For a non-empty url whose hostname resolves, the computed headers carry a
`host` header of hostname plus optional `:port` (no side condition on the
correlation header name: the `host` assignment comes later and wins). -/
theorem computedHeaders_host (corrName : String) (args : Args)
    (seg : SegmentData) (url freshId : String) (h : String)
    (hu : url ≠ "") (hh : (urlParse url).hostname = some h) :
    (computedHeaders corrName args seg url freshId).lookup "host" =
      some (h ++ portSuffix (urlParse url).port) := by
  cases hseg : seg.clsSegment <;>
    simp [computedHeaders, hseg, hu, hh, hostnameStr, lookup_hset_ne, lookup_hset_self]

/-- With an active cls segment, the computed headers carry the trace header in
the documented `Root=..;Parent=..;Sampled=1` shape. -/
theorem computedHeaders_trace_some (corrName : String) (args : Args)
    (seg : SegmentData) (url freshId tid : String) (hseg : seg.clsSegment = some tid) :
    (computedHeaders corrName args seg url freshId).lookup "X-Amzn-Trace-Id" =
      some ("Root=" ++ tid ++ ";Parent=" ++ seg.subSegment.getD freshId
        ++ ";Sampled=1") := by
  simp [computedHeaders, hseg, lookup_hset_self]

/-- With no active cls segment, the computed headers carry no trace header. -/
theorem computedHeaders_trace_none (corrName : String) (args : Args)
    (seg : SegmentData) (url freshId : String) (hseg : seg.clsSegment = none)
    (hc : corrName ≠ "X-Amzn-Trace-Id") :
    (computedHeaders corrName args seg url freshId).lookup "X-Amzn-Trace-Id" =
      none := by
  have hc' : "X-Amzn-Trace-Id" ≠ corrName := Ne.symm hc
  by_cases hu : url = "" <;>
    simp [computedHeaders, hseg, hu, lookup_hset_ne, hc']

/-! ## Helper lemmas on the cache and the retry loop -/

/-- A value just `put` is `get`-visible for the same key at any time up to its
expiry `now + ttl`. -/
theorem cacheGet_cachePut_self {Service : Type} (c : SCache Service)
    (k : Option String) (v : Service) (now ttl now' : Nat)
    (h : now' ≤ now + ttl) :
    cacheGet (cachePut c k v now ttl) k now' = some v := by
  simp [cachePut, cacheGet, h]

/-- The retry loop makes at most `fuel` attempts. -/
theorem attemptsFrom_le (outcomes : Nat → AttemptOutcome) (maxAttempts : Nat) :
    ∀ fuel i, attemptsFrom outcomes maxAttempts i fuel ≤ fuel := by
  intro fuel
  induction fuel with
  | zero => intro i; simp [attemptsFrom]
  | succ f ih =>
      intro i
      unfold attemptsFrom
      by_cases h : (shouldRetry (outcomes i) && decide (i < maxAttempts)) = true
      · rw [if_pos h, Nat.add_comm 1]
        exact Nat.succ_le_succ (ih (i + 1))
      · rw [if_neg h, Nat.add_comm 1]
        exact Nat.succ_le_succ (Nat.zero_le f)

/-! ## Claims about the cache middleware -/

/-- C1: for every inbound request in which neither `req.chargeId` nor
`req.chargeData` is present, the middleware routes an `UNAUTHORISED` response
and terminates there: no cache read, no `findServiceBy` call, no `next`. -/
theorem C1_unauthorised_short_circuit {Service : Type} (req : Req)
    (cache : SCache Service) (now maxAge : Nat) (fetch : Except Unit Service)
    (hId : req.chargeId = none) (hData : req.chargeData = none) :
    middleware req cache now maxAge fetch =
      { outcome := .respond "UNAUTHORISED", service := none, cache := cache
        downstreamCalled := false, cacheRead := false } := by
  simp [middleware, lacksAuthContext, jsTruthyStr, hId, hData]

/-- Witness for C1 at a concrete empty request. -/
theorem C1_witness :
    @middleware String ⟨none, none⟩ [] 0 900000 (Except.error ()) =
      { outcome := .respond "UNAUTHORISED", service := none, cache := []
        downstreamCalled := false, cacheRead := false } :=
  C1_unauthorised_short_circuit ⟨none, none⟩ [] 0 900000 (Except.error ()) rfl rfl

/-- C2: for a request that passes the authorisation check and whose gateway
account id has a live cache entry, the middleware does not invoke the
downstream client, attaches exactly the cached value to the request context,
and calls `next`. -/
theorem C2_cache_hit_uses_cached_value {Service : Type} (req : Req)
    (cache : SCache Service) (now maxAge : Nat) (fetch : Except Unit Service)
    (v : Service) (hAuth : lacksAuthContext req = false)
    (hHit : cacheGet cache (gatewayAccountIdOf req) now = some v) :
    middleware req cache now maxAge fetch =
      { outcome := .nextCalled, service := some v, cache := cache
        downstreamCalled := false, cacheRead := true } := by
  simp [middleware, hAuth, hHit]

/-- Witness for C2 at a concrete request and one-entry cache. -/
theorem C2_witness :
    @middleware String ⟨some "c1", some ⟨some ⟨some "a1", none⟩⟩⟩
        [(some "a1", "svc", 10)] 5 900000 (Except.error ()) =
      { outcome := .nextCalled, service := some "svc"
        cache := [(some "a1", "svc", 10)]
        downstreamCalled := false, cacheRead := true } :=
  C2_cache_hit_uses_cached_value _ _ _ _ _ "svc" rfl rfl

/-- C3: for a request that passes the authorisation check, misses the cache,
and fetches `v` successfully, the middleware caches `v` under the gateway
account id with TTL `maxAge`, sets the context service to `v`, calls `next`;
and any later request for the same account id arriving before the TTL
elapses is served from cache. -/
theorem C3_miss_fetch_success_populates_cache {Service : Type} (req req' : Req)
    (cache : SCache Service) (now now' maxAge : Nat) (v : Service)
    (fetch' : Except Unit Service)
    (hAuth : lacksAuthContext req = false)
    (hMiss : cacheGet cache (gatewayAccountIdOf req) now = none)
    (hAuth' : lacksAuthContext req' = false)
    (hSame : gatewayAccountIdOf req' = gatewayAccountIdOf req)
    (hTTL : now' < now + maxAge) :
    middleware req cache now maxAge (Except.ok v) =
      { outcome := .nextCalled, service := some v
        cache := cachePut cache (gatewayAccountIdOf req) v now maxAge
        downstreamCalled := true, cacheRead := true } ∧
    middleware req' (cachePut cache (gatewayAccountIdOf req) v now maxAge)
        now' maxAge fetch' =
      { outcome := .nextCalled, service := some v
        cache := cachePut cache (gatewayAccountIdOf req) v now maxAge
        downstreamCalled := false, cacheRead := true } := by
  have hHit : cacheGet (cachePut cache (gatewayAccountIdOf req) v now maxAge)
      (gatewayAccountIdOf req') now' = some v := by
    rw [hSame]
    exact cacheGet_cachePut_self _ _ _ _ _ _ (Nat.le_of_lt hTTL)
  constructor
  · simp [middleware, hAuth, hMiss]
  · simp [middleware, hAuth', hHit]

/-- Witness for C3 at a concrete request, repeated 1 ms later. -/
theorem C3_witness :
    @middleware String ⟨some "c1", some ⟨some ⟨some "a1", none⟩⟩⟩
        [] 0 900000 (Except.ok "svc") =
      { outcome := .nextCalled, service := some "svc"
        cache := cachePut [] (some "a1") "svc" 0 900000
        downstreamCalled := true, cacheRead := true } ∧
    @middleware String ⟨some "c1", some ⟨some ⟨some "a1", none⟩⟩⟩
        (cachePut [] (some "a1") "svc" 0 900000) 1 900000 (Except.error ()) =
      { outcome := .nextCalled, service := some "svc"
        cache := cachePut [] (some "a1") "svc" 0 900000
        downstreamCalled := false, cacheRead := true } :=
  C3_miss_fetch_success_populates_cache _ _ _ _ _ _ _ _
    rfl rfl rfl rfl (by decide)

/-- C4, counterexample to the claim as stated: a request carrying only a
charge id passes the authorisation check and misses the cache, but on fetch
failure the logging line dereferences
`req.chargeData.gateway_account.serviceName` on an absent `chargeData`, so the
rejection handler throws and the next pipeline stage is NOT invoked. -/
theorem C4_counterexample :
    lacksAuthContext ⟨some "ch_1", none⟩ = false ∧
    cacheGet ([] : SCache String) (gatewayAccountIdOf ⟨some "ch_1", none⟩) 0 =
      none ∧
    (@middleware String ⟨some "ch_1", none⟩ [] 0 900000
        (Except.error ())).outcome ≠ MWOutcome.nextCalled ∧
    (@middleware String ⟨some "ch_1", none⟩ [] 0 900000
        (Except.error ())).outcome = MWOutcome.threw := by
  decide

/-- C4 (amended): for a request that passes the authorisation check, whose
`chargeData` carries a `gateway_account` object, and which misses the cache,
a failed fetch still reaches `next` and leaves the request context without a
service value. -/
theorem C4_miss_fetch_failure_continues {Service : Type} (req : Req)
    (cache : SCache Service) (now maxAge : Nat) (ga : GatewayAccount)
    (hGA : req.chargeData.bind (·.gateway_account) = some ga)
    (hMiss : cacheGet cache (gatewayAccountIdOf req) now = none) :
    middleware req cache now maxAge (Except.error ()) =
      { outcome := .nextCalled, service := none, cache := cache
        downstreamCalled := true, cacheRead := true } := by
  have hAuth : lacksAuthContext req = false := by
    cases hcd : req.chargeData with
    | none => rw [hcd] at hGA; simp at hGA
    | some cd => simp [lacksAuthContext, hcd]
  simp [middleware, hAuth, hMiss, hGA]

/-- Witness for the amended C4 at a concrete request. -/
theorem C4_witness :
    @middleware String ⟨some "c1", some ⟨some ⟨some "a1", some "sn"⟩⟩⟩
        [] 7 900000 (Except.error ()) =
      { outcome := .nextCalled, service := none, cache := []
        downstreamCalled := true, cacheRead := true } :=
  C4_miss_fetch_failure_continues _ _ _ _ ⟨some "a1", some "sn"⟩ rfl rfl

/-- C10: requests that pass the authorisation check but whose `chargeData`
lacks the `gateway_account.gateway_account_id` path proceed with an undefined
account id: the lookup, the fetch and the insertion are all keyed by that
undefined value, so all such requests share one cache entry — a later such
request (within the TTL) is served the earlier one's value, whatever account
it concerns. -/
theorem C10_undefined_account_id_shares_cache_entry {Service : Type}
    (req1 req2 : Req) (cache : SCache Service) (now now' maxAge : Nat)
    (v : Service) (fetch2 : Except Unit Service)
    (h1 : lacksAuthContext req1 = false) (h2 : lacksAuthContext req2 = false)
    (hg1 : gatewayAccountIdOf req1 = none) (hg2 : gatewayAccountIdOf req2 = none)
    (hMiss : cacheGet cache none now = none) (hTTL : now' ≤ now + maxAge) :
    (middleware req1 cache now maxAge (Except.ok v)).cache =
      cachePut cache none v now maxAge ∧
    middleware req2 (cachePut cache none v now maxAge) now' maxAge fetch2 =
      { outcome := .nextCalled, service := some v
        cache := cachePut cache none v now maxAge
        downstreamCalled := false, cacheRead := true } := by
  have hHit : cacheGet (cachePut cache none v now maxAge)
      (gatewayAccountIdOf req2) now' = some v := by
    rw [hg2]
    exact cacheGet_cachePut_self _ _ _ _ _ _ hTTL
  constructor
  · simp [middleware, hg1, h1, hMiss]
  · simp [middleware, h2, hHit]

/-- Witness for C10: a charge-id-only request and a request whose
`chargeData` lacks the `gateway_account` object end up sharing one entry. -/
theorem C10_witness :
    (@middleware String ⟨some "c1", none⟩ [] 0 900000
        (Except.ok "svcA")).cache = cachePut [] none "svcA" 0 900000 ∧
    @middleware String ⟨some "c2", some ⟨none⟩⟩
        (cachePut [] none "svcA" 0 900000) 5 900000 (Except.error ()) =
      { outcome := .nextCalled, service := some "svcA"
        cache := cachePut [] none "svcA" 0 900000
        downstreamCalled := false, cacheRead := true } :=
  C10_undefined_account_id_shares_cache_entry _ _ _ _ _ _ _ _
    rfl rfl rfl rfl rfl (by decide)

/-! ## Claims about the outbound client -/

/-- C5: the computed header set always carries `Content-Type:
application/json` and the correlation header (caller's correlation id, or the
empty string); for a URL with resolvable host it carries a `host` header of
hostname plus optional `:port`; in particular `https://svc.internal:8443/x`
with no caller headers yields `host: svc.internal:8443` and the JSON content
type. -/
theorem C5_header_construction (corrName : String) (args : Args)
    (seg : SegmentData) (url freshId : String)
    (h1 : corrName ≠ "Content-Type") (h2 : corrName ≠ "host")
    (h3 : corrName ≠ "X-Amzn-Trace-Id") :
    (computedHeaders corrName args seg url freshId).lookup "Content-Type" =
      some "application/json" ∧
    (computedHeaders corrName args seg url freshId).lookup corrName =
      some (jsOrEmpty args.correlationId) ∧
    (∀ h, url ≠ "" → (urlParse url).hostname = some h →
      (computedHeaders corrName args seg url freshId).lookup "host" =
        some (h ++ portSuffix (urlParse url).port)) ∧
    (getHeaders corrName ⟨none, [], none, none⟩ seg
        "https://svc.internal:8443/x" freshId).lookup "host" =
      some "svc.internal:8443" ∧
    (getHeaders corrName ⟨none, [], none, none⟩ seg
        "https://svc.internal:8443/x" freshId).lookup "Content-Type" =
      some "application/json" := by
  refine ⟨computedHeaders_contentType _ _ _ _ _ h1,
    computedHeaders_correlation _ _ _ _ _ h2 h3,
    fun h hu hh => computedHeaders_host _ _ _ _ _ h hu hh, ?_, ?_⟩
  · show (mergeHeaders (computedHeaders corrName ⟨none, [], none, none⟩ seg
        "https://svc.internal:8443/x" freshId) []).lookup "host" = _
    rw [mergeHeaders_nil,
      computedHeaders_host _ _ _ _ _ "svc.internal" (by decide) (by rfl)]
    rfl
  · show (mergeHeaders (computedHeaders corrName ⟨none, [], none, none⟩ seg
        "https://svc.internal:8443/x" freshId) []).lookup "Content-Type" = _
    rw [mergeHeaders_nil]
    exact computedHeaders_contentType _ _ _ _ _ h1

/-- Witness for C5 at the correlation header name `x-request-id`. -/
theorem C5_witness :
    (computedHeaders "x-request-id" ⟨some "cid", [], none, none⟩ ⟨none, none⟩
        "https://svc.internal:8443/x" "f1").lookup "Content-Type" =
      some "application/json" ∧
    (computedHeaders "x-request-id" ⟨some "cid", [], none, none⟩ ⟨none, none⟩
        "https://svc.internal:8443/x" "f1").lookup "x-request-id" =
      some (jsOrEmpty (some "cid")) ∧
    (∀ h, "https://svc.internal:8443/x" ≠ "" →
      (urlParse "https://svc.internal:8443/x").hostname = some h →
      (computedHeaders "x-request-id" ⟨some "cid", [], none, none⟩ ⟨none, none⟩
          "https://svc.internal:8443/x" "f1").lookup "host" =
        some (h ++ portSuffix (urlParse "https://svc.internal:8443/x").port)) ∧
    (getHeaders "x-request-id" ⟨none, [], none, none⟩ ⟨none, none⟩
        "https://svc.internal:8443/x" "f1").lookup "host" =
      some "svc.internal:8443" ∧
    (getHeaders "x-request-id" ⟨none, [], none, none⟩ ⟨none, none⟩
        "https://svc.internal:8443/x" "f1").lookup "Content-Type" =
      some "application/json" :=
  C5_header_construction "x-request-id" ⟨some "cid", [], none, none⟩
    ⟨none, none⟩ "https://svc.internal:8443/x" "f1"
    (by decide) (by decide) (by decide)

/-- C6: with an active trace context, the headers carry an `X-Amzn-Trace-Id`
of exactly `Root=<traceId>;Parent=<childSegmentId>;Sampled=1`, where the
child segment id is the caller-provided sub-segment's id or a freshly
synthesized one; with no active trace context, no trace header is set. -/
theorem C6_trace_header (corrName : String) (args : Args) (seg : SegmentData)
    (url freshId : String)
    (hcorr : corrName ≠ "X-Amzn-Trace-Id")
    (hcaller : ∀ v, ("X-Amzn-Trace-Id", v) ∉ args.headers) :
    (∀ tid, seg.clsSegment = some tid →
      (getHeaders corrName args seg url freshId).lookup "X-Amzn-Trace-Id" =
        some ("Root=" ++ tid ++ ";Parent=" ++ seg.subSegment.getD freshId
          ++ ";Sampled=1")) ∧
    (seg.clsSegment = none →
      (getHeaders corrName args seg url freshId).lookup "X-Amzn-Trace-Id" =
        none) := by
  constructor
  · intro tid hseg
    simp only [getHeaders]
    rw [lookup_mergeHeaders_not_mem _ _ hcaller]
    exact computedHeaders_trace_some _ _ _ _ _ _ hseg
  · intro hseg
    simp only [getHeaders]
    rw [lookup_mergeHeaders_not_mem _ _ hcaller]
    exact computedHeaders_trace_none _ _ _ _ _ hseg hcorr

/-- Witness for C6 with an active segment `tr` and no caller sub-segment. -/
theorem C6_witness :
    (getHeaders "x-request-id" ⟨none, [], none, none⟩ ⟨some "tr", none⟩
        "https://svc.internal:8443/x" "f1").lookup "X-Amzn-Trace-Id" =
      some ("Root=" ++ "tr" ++ ";Parent=" ++ (none : Option String).getD "f1"
        ++ ";Sampled=1") :=
  (C6_trace_header "x-request-id" ⟨none, [], none, none⟩ ⟨some "tr", none⟩
    "https://svc.internal:8443/x" "f1" (by decide) (by simp)).1 "tr" rfl

/-- C7: caller-supplied headers are merged after the computed headers, and on
any key collision the caller-supplied value is the final one. -/
theorem C7_caller_headers_override (corrName : String) (args : Args)
    (seg : SegmentData) (url freshId k v : String)
    (hnodup : (args.headers.map Prod.fst).Nodup)
    (hv : args.headers.lookup k = some v) :
    (getHeaders corrName args seg url freshId).lookup k = some v := by
  simp only [getHeaders]
  exact lookup_mergeHeaders_mem _ _ hnodup hv

/-- Witness for C7: a caller-supplied `Content-Type` overrides the computed
JSON content type. -/
theorem C7_witness :
    (getHeaders "x-request-id" ⟨none, [("Content-Type", "text/html")], none, none⟩
        ⟨some "tr", some "sub"⟩ "https://svc.internal:8443/x" "f1").lookup
      "Content-Type" = some "text/html" :=
  C7_caller_headers_override "x-request-id"
    ⟨none, [("Content-Type", "text/html")], none, none⟩ ⟨some "tr", some "sub"⟩
    "https://svc.internal:8443/x" "f1" "Content-Type" "text/html"
    (by simp) rfl

/-- C8: the retry policy retries exactly on errors whose code is in
`['ECONNRESET']`, with at most 3 total attempts at a fixed 5000 ms delay:
all-connection-reset runs make exactly 3 attempts, while a first attempt
ending in any other error or in any HTTP response (e.g. a 500) makes exactly
1 attempt. -/
theorem C8_retry_policy :
    (clientDefaults.maxAttempts = 3 ∧ clientDefaults.retryDelay = 5000 ∧
      RETRIABLE_ERRORS = ["ECONNRESET"]) ∧
    (∀ o : AttemptOutcome, shouldRetry o = true ↔
      ∃ e, errOf o = some e ∧ ∃ c, e.code = some c ∧ c ∈ RETRIABLE_ERRORS) ∧
    (∀ outcomes : Nat → AttemptOutcome,
      totalAttempts outcomes clientDefaults.maxAttempts ≤ 3) ∧
    (∀ outcomes : Nat → AttemptOutcome,
      (∀ i, outcomes i = .failure ⟨some "ECONNRESET"⟩) →
      totalAttempts outcomes clientDefaults.maxAttempts = 3) ∧
    (∀ outcomes : Nat → AttemptOutcome, shouldRetry (outcomes 1) = false →
      totalAttempts outcomes clientDefaults.maxAttempts = 1) ∧
    (∀ s : Nat, shouldRetry (.response s) = false) ∧
    (∀ c : String, c ≠ "ECONNRESET" →
      shouldRetry (.failure ⟨some c⟩) = false) := by
  refine ⟨⟨rfl, rfl, rfl⟩, ?_, ?_, ?_, ?_, ?_, ?_⟩
  · intro o
    cases o with
    | failure e =>
        cases hc : e.code with
        | none => simp [shouldRetry, retryOnEconnreset, errOf, hc, RETRIABLE_ERRORS]
        | some c => simp [shouldRetry, retryOnEconnreset, errOf, hc, RETRIABLE_ERRORS]
    | response s => simp [shouldRetry, retryOnEconnreset, errOf]
  · intro outcomes
    exact attemptsFrom_le outcomes 3 3 1
  · intro outcomes h
    simp [totalAttempts, attemptsFrom, h 1, h 2, h 3, shouldRetry, errOf,
      retryOnEconnreset, RETRIABLE_ERRORS, clientDefaults]
  · intro outcomes h
    simp [totalAttempts, attemptsFrom, h, clientDefaults]
  · intro s
    simp [shouldRetry, retryOnEconnreset, errOf]
  · intro c hc
    simp [shouldRetry, retryOnEconnreset, errOf, RETRIABLE_ERRORS, hc]

/-- C9: with a forward proxy configured, the destination's hostname and port
are rewritten to the proxy's, while the `host` header is still computed from
the original target URL. -/
theorem C9_forward_proxy_rewrites_destination_only (corrName proxy methodName
    url freshId : String) (args : Args) (clsSegment subSegment : Option String)
    (h : String)
    (hproxy : proxy ≠ "") (hurl : url ≠ "")
    (hhost : (urlParse url).hostname = some h)
    (hcaller : ∀ v, ("host", v) ∉ args.headers) :
    (buildRequestOptions corrName (some proxy) methodName url args clsSegment
        subSegment freshId).uri =
      Uri.obj ⟨(urlParse url).protocol, (urlParse proxy).hostname,
        (urlParse proxy).port⟩ ∧
    (buildRequestOptions corrName (some proxy) methodName url args clsSegment
        subSegment freshId).headers.lookup "host" =
      some (h ++ portSuffix (urlParse url).port) := by
  constructor
  · simp [buildRequestOptions, jsTruthyStr, hproxy, jsOrEmpty]
  · show (getHeaders corrName args ⟨clsSegment, subSegment⟩ url freshId).lookup
      "host" = _
    simp only [getHeaders]
    rw [lookup_mergeHeaders_not_mem _ _ hcaller]
    exact computedHeaders_host _ _ _ _ _ h hurl hhost

/-- Witness for C9 at a concrete proxy and target. -/
theorem C9_witness :
    (buildRequestOptions "x-request-id" (some "http://proxy.local:3128") "GET"
        "https://svc.internal:8443/x" ⟨none, [], none, none⟩ none none
        "f1").uri =
      Uri.obj ⟨(urlParse "https://svc.internal:8443/x").protocol,
        (urlParse "http://proxy.local:3128").hostname,
        (urlParse "http://proxy.local:3128").port⟩ ∧
    (buildRequestOptions "x-request-id" (some "http://proxy.local:3128") "GET"
        "https://svc.internal:8443/x" ⟨none, [], none, none⟩ none none
        "f1").headers.lookup "host" =
      some ("svc.internal" ++
        portSuffix (urlParse "https://svc.internal:8443/x").port) :=
  C9_forward_proxy_rewrites_destination_only "x-request-id"
    "http://proxy.local:3128" "GET" "https://svc.internal:8443/x" "f1"
    ⟨none, [], none, none⟩ none none "svc.internal"
    (by decide) (by decide) (by rfl) (by simp)
